import Mathlib

/-!
Shallow embedding of the core of the `langgraph-react-agent` repository:
the mock tools (`search_web` and `calculator` from `src/react_agent/tools.py`),
the agent-graph functions (`create_llm`, `agent_node`, `should_continue`,
`create_agent_graph` from `src/react_agent/agent.py`) and the message state
(`src/react_agent/state.py`, `add_messages` reducer).

Numeric evaluation of `eval(expression)` on the calculator's character-filtered
fragment is modelled over exact rationals: the claims exercised here use only
integer arithmetic and error branches, where the rational model and IEEE-754
floats agree exactly.
-/

namespace ReactAgent

/-! ## String helpers (Python `in` operator and `str.lower`) -/

/-- Does the list `n` occur as a leading segment of the second list?
Building block for the substring test below. -/
def startsWithL : List Char → List Char → Bool
  | [], _ => true
  | _ :: _, [] => false
  | a :: as, b :: bs => a == b && startsWithL as bs

/-- Does `needle` occur contiguously anywhere in the second list?
Models Python's `in` operator on strings. -/
def containsSub (needle : List Char) : List Char → Bool
  | [] => needle.isEmpty
  | b :: bs => startsWithL needle (b :: bs) || containsSub needle bs

/-- Python `needle in hay` on strings. -/
def strIn (needle hay : String) : Bool := containsSub needle.data hay.data

/-- Python `hay.startswith(p)`: is `p` a leading segment of `hay`? -/
def strStartsWith (p hay : String) : Bool := startsWithL p.data hay.data

/-- Python `query.lower()` on the ASCII alphabet the mapping uses:
lowercase every character. -/
def strLower (s : String) : String := String.mk (s.data.map Char.toLower)

/-! ## `search_web` (src/react_agent/tools.py lines 7-29) -/

/-- The `mock_results` dict of `search_web`, in its fixed insertion order
(Python dicts preserve insertion order, and the `for` loop iterates in it). -/
def mockResults : List (String × String) :=
  [("langgraph", "LangGraph is a library for building stateful, multi-actor applications with LLMs."),
   ("react agent", "ReAct (Reasoning and Acting) is a paradigm that combines reasoning and action in LLM agents."),
   ("gemini api", "Google Gemini API provides access to Google's multimodal AI models.")]

/-- `search_web` from src/react_agent/tools.py: lowercase the query, return
the canned text of the first keyword that is a substring, else the fallback.
`List.find?` returns the first list entry satisfying the predicate, exactly as
the source's `for keyword, result in mock_results.items()` loop does. -/
def search_web (query : String) : String :=
  let queryLower := strLower query
  match mockResults.find? (fun kr => strIn kr.1 queryLower) with
  | some kr => "Search results for '" ++ query ++ "': " ++ kr.2
  | none => "Search results for '" ++ query ++ "': No specific results found. This is a mock search tool."

/-! ## `calculator` (src/react_agent/tools.py lines 31-52)

The source runs Python `eval` on the character-filtered expression. The
reachable value domain after the filter `0123456789+-*/(). ` is: ints, floats
and the empty tuple `()` (no comma is allowed, so no non-empty tuple is
constructible). We embed that fragment: a tokenizer, a recursive-descent
parser with Python's precedence (including `**` and `//`, both writable with
the allowed characters), and an evaluator over exact rationals. -/

/-- A Python value reachable by `eval` on the filtered character set:
an `int`, a `float` (modelled as an exact rational), or the empty tuple. -/
inductive PyVal where
  | intV (i : Int)
  | floatV (q : ℚ)
  | tupV
  deriving DecidableEq, Repr

/-- The exception classes `eval` can raise on this fragment, as far as the
`calculator` branches distinguish them: `ZeroDivisionError` versus everything
else (`SyntaxError`, `TypeError`); `nonRational` marks the irrational results
(fractional powers) that the exact-rational model cannot represent. -/
inductive EvalErr where
  | zeroDiv
  | typeErr
  | synErr
  | nonRational
  deriving DecidableEq, Repr

/-- Decimal digits to a natural number. -/
def digitsToNat (ds : List Char) : Nat := ds.foldl (fun a c => a * 10 + (c.toNat - 48)) 0

/-- Lex one numeric literal (Python `NUMBER` token restricted to the allowed
characters): digits, optionally a single dot with digits on either side.
An `int` literal with a leading zero and a nonzero digit is a Python 3
`SyntaxError` (`010`), while all-zero (`00`) and float literals (`00.5`)
are accepted. Returns `none` on a lone dot. -/
def lexNumber (cs : List Char) : Option (PyVal × List Char) :=
  let intDs := cs.takeWhile Char.isDigit
  let rest1 := cs.drop intDs.length
  match rest1 with
  | '.' :: rest2 =>
    let fracDs := rest2.takeWhile Char.isDigit
    let rest3 := rest2.drop fracDs.length
    if intDs.isEmpty && fracDs.isEmpty then none
    else some (PyVal.floatV ((digitsToNat (intDs ++ fracDs) : ℚ) / (10 ^ fracDs.length : ℚ)), rest3)
  | _ =>
    if intDs.isEmpty then none
    else if intDs.head? == some '0' && intDs.any (fun c => c != '0') then none
    else some (PyVal.intV (digitsToNat intDs : Int), rest1)

/-- Tokens of the arithmetic fragment. -/
inductive Tok where
  | num (v : PyVal)
  | plus
  | minus
  | star
  | slash
  | dstar
  | dslash
  | lpar
  | rpar
  deriving DecidableEq, Repr

/-- Tokenizer, fuelled by the input length (each step consumes at least one
character). `**` and `//` are lexed as single tokens as Python does. -/
def tokenizeAux : Nat → List Char → Except EvalErr (List Tok)
  | _, [] => Except.ok []
  | 0, _ => Except.error EvalErr.synErr
  | fuel + 1, c :: cs =>
    if c == ' ' then tokenizeAux fuel cs
    else if c == '+' then (tokenizeAux fuel cs).map (fun ts => Tok.plus :: ts)
    else if c == '-' then (tokenizeAux fuel cs).map (fun ts => Tok.minus :: ts)
    else if c == '*' then
      match cs with
      | '*' :: cs2 => (tokenizeAux fuel cs2).map (fun ts => Tok.dstar :: ts)
      | _ => (tokenizeAux fuel cs).map (fun ts => Tok.star :: ts)
    else if c == '/' then
      match cs with
      | '/' :: cs2 => (tokenizeAux fuel cs2).map (fun ts => Tok.dslash :: ts)
      | _ => (tokenizeAux fuel cs).map (fun ts => Tok.slash :: ts)
    else if c == '(' then (tokenizeAux fuel cs).map (fun ts => Tok.lpar :: ts)
    else if c == ')' then (tokenizeAux fuel cs).map (fun ts => Tok.rpar :: ts)
    else if c.isDigit || c == '.' then
      match lexNumber (c :: cs) with
      | some (v, rest) => (tokenizeAux fuel rest).map (fun ts => Tok.num v :: ts)
      | none => Except.error EvalErr.synErr
    else Except.error EvalErr.synErr

/-- Tokenize a character list. -/
def tokenize (cs : List Char) : Except EvalErr (List Tok) := tokenizeAux (cs.length + 1) cs

/-- Binary operators of the fragment. -/
inductive BinOp where
  | add
  | sub
  | mul
  | div
  | fdiv
  | pow
  deriving DecidableEq, Repr

/-- Unary operators of the fragment. -/
inductive UnOp where
  | neg
  | pos
  deriving DecidableEq, Repr

/-- Abstract syntax of the arithmetic fragment; `lit PyVal.tupV` is the
literal `()` (the only tuple writable without a comma). -/
inductive PyExpr where
  | lit (v : PyVal)
  | unary (op : UnOp) (e : PyExpr)
  | bin (op : BinOp) (l r : PyExpr)
  deriving DecidableEq, Repr

mutual

/-- `expr := term ((+|-) term)*` — Python's additive level. -/
def parseExpr : Nat → List Tok → Except EvalErr (PyExpr × List Tok)
  | 0, _ => Except.error EvalErr.synErr
  | f + 1, toks =>
    match parseTerm f toks with
    | Except.error e => Except.error e
    | Except.ok (e, rest) => parseExprRest f e rest

/-- Left fold of the additive operators. -/
def parseExprRest : Nat → PyExpr → List Tok → Except EvalErr (PyExpr × List Tok)
  | 0, _, _ => Except.error EvalErr.synErr
  | f + 1, acc, Tok.plus :: rest =>
    match parseTerm f rest with
    | Except.error e => Except.error e
    | Except.ok (t, r) => parseExprRest f (PyExpr.bin BinOp.add acc t) r
  | f + 1, acc, Tok.minus :: rest =>
    match parseTerm f rest with
    | Except.error e => Except.error e
    | Except.ok (t, r) => parseExprRest f (PyExpr.bin BinOp.sub acc t) r
  | _ + 1, acc, toks => Except.ok (acc, toks)

/-- `term := factor ((*|/|//) factor)*` — Python's multiplicative level. -/
def parseTerm : Nat → List Tok → Except EvalErr (PyExpr × List Tok)
  | 0, _ => Except.error EvalErr.synErr
  | f + 1, toks =>
    match parseUnary f toks with
    | Except.error e => Except.error e
    | Except.ok (e, rest) => parseTermRest f e rest

/-- Left fold of the multiplicative operators. -/
def parseTermRest : Nat → PyExpr → List Tok → Except EvalErr (PyExpr × List Tok)
  | 0, _, _ => Except.error EvalErr.synErr
  | f + 1, acc, Tok.star :: rest =>
    match parseUnary f rest with
    | Except.error e => Except.error e
    | Except.ok (t, r) => parseTermRest f (PyExpr.bin BinOp.mul acc t) r
  | f + 1, acc, Tok.slash :: rest =>
    match parseUnary f rest with
    | Except.error e => Except.error e
    | Except.ok (t, r) => parseTermRest f (PyExpr.bin BinOp.div acc t) r
  | f + 1, acc, Tok.dslash :: rest =>
    match parseUnary f rest with
    | Except.error e => Except.error e
    | Except.ok (t, r) => parseTermRest f (PyExpr.bin BinOp.fdiv acc t) r
  | _ + 1, acc, toks => Except.ok (acc, toks)

/-- `factor := (+|-) factor | power` — Python's unary level, so that
`-2 ** 2` parses as `-(2 ** 2)`. -/
def parseUnary : Nat → List Tok → Except EvalErr (PyExpr × List Tok)
  | 0, _ => Except.error EvalErr.synErr
  | f + 1, Tok.minus :: rest =>
    match parseUnary f rest with
    | Except.error e => Except.error e
    | Except.ok (e, r) => Except.ok (PyExpr.unary UnOp.neg e, r)
  | f + 1, Tok.plus :: rest =>
    match parseUnary f rest with
    | Except.error e => Except.error e
    | Except.ok (e, r) => Except.ok (PyExpr.unary UnOp.pos e, r)
  | f + 1, toks => parsePower f toks

/-- `power := atom [** factor]` — the exponent may carry unary signs,
so `2 ** -1` parses. -/
def parsePower : Nat → List Tok → Except EvalErr (PyExpr × List Tok)
  | 0, _ => Except.error EvalErr.synErr
  | f + 1, toks =>
    match parseAtom f toks with
    | Except.error e => Except.error e
    | Except.ok (a, Tok.dstar :: rest2) =>
      match parseUnary f rest2 with
      | Except.error e => Except.error e
      | Except.ok (e, r) => Except.ok (PyExpr.bin BinOp.pow a e, r)
    | Except.ok (a, rest) => Except.ok (a, rest)

/-- `atom := NUMBER | ( ) | ( expr )` — `()` is Python's empty tuple. -/
def parseAtom : Nat → List Tok → Except EvalErr (PyExpr × List Tok)
  | 0, _ => Except.error EvalErr.synErr
  | _ + 1, Tok.num v :: rest => Except.ok (PyExpr.lit v, rest)
  | _ + 1, Tok.lpar :: Tok.rpar :: rest => Except.ok (PyExpr.lit PyVal.tupV, rest)
  | f + 1, Tok.lpar :: rest =>
    match parseExpr f rest with
    | Except.error e => Except.error e
    | Except.ok (e, Tok.rpar :: r2) => Except.ok (e, r2)
    | Except.ok _ => Except.error EvalErr.synErr
  | _, _ => Except.error EvalErr.synErr

end

/-- Parse a whole token list; trailing tokens are a `SyntaxError`, as in
Python. The fuel `16 * (length + 1)` dominates the call depth: each grammar
level costs one unit and every atom consumes a token. -/
def parse (toks : List Tok) : Except EvalErr PyExpr :=
  match parseExpr (16 * (toks.length + 1)) toks with
  | Except.error e => Except.error e
  | Except.ok (e, []) => Except.ok e
  | Except.ok _ => Except.error EvalErr.synErr

/-- Numeric view of a value (`int` and `float` coerce, the tuple does not). -/
def qOf : PyVal → Option ℚ
  | PyVal.intV i => some (i : ℚ)
  | PyVal.floatV q => some q
  | PyVal.tupV => none

/-- Floor of a rational, as an integer (Python `//` semantics). -/
def ratFloor (q : ℚ) : Int := Int.fdiv q.num (q.den : Int)

/-- Python `**` on the fragment: `int ** nonneg int` stays `int`; a negative
integer exponent yields a `float` (`0 ** -1` is `ZeroDivisionError`); a
float with an integer value as exponent is exact exponentiation; a fractional
exponent leaves the rational model (`nonRational`); a tuple operand is a
`TypeError`. -/
def powVal (a b : PyVal) : Except EvalErr PyVal :=
  match a, b with
  | PyVal.intV x, PyVal.intV y =>
    if 0 ≤ y then Except.ok (PyVal.intV (x ^ y.toNat))
    else if x == 0 then Except.error EvalErr.zeroDiv
    else Except.ok (PyVal.floatV ((x : ℚ) ^ y))
  | _, _ =>
    match qOf a, qOf b with
    | some x, some y =>
      if y.den == 1 then
        if x == 0 && y.num < 0 then Except.error EvalErr.zeroDiv
        else if x == 0 then Except.ok (PyVal.floatV (if y.num == 0 then 1 else 0))
        else Except.ok (PyVal.floatV (x ^ y.num))
      else Except.error EvalErr.nonRational
    | _, _ => Except.error EvalErr.typeErr

/-- Python binary operator semantics on the reachable values: `int op int`
stays `int` except `/`; any `float` operand promotes; `/` always raises
`ZeroDivisionError` on a zero divisor; the empty tuple supports `+` with a
tuple and `*` with an `int` (concatenation and repetition, both yielding `()`
here), everything else is a `TypeError`. -/
def evalBin (op : BinOp) (a b : PyVal) : Except EvalErr PyVal :=
  match op with
  | BinOp.add =>
    match a, b with
    | PyVal.intV x, PyVal.intV y => Except.ok (PyVal.intV (x + y))
    | PyVal.tupV, PyVal.tupV => Except.ok PyVal.tupV
    | _, _ =>
      match qOf a, qOf b with
      | some x, some y => Except.ok (PyVal.floatV (x + y))
      | _, _ => Except.error EvalErr.typeErr
  | BinOp.sub =>
    match a, b with
    | PyVal.intV x, PyVal.intV y => Except.ok (PyVal.intV (x - y))
    | _, _ =>
      match qOf a, qOf b with
      | some x, some y => Except.ok (PyVal.floatV (x - y))
      | _, _ => Except.error EvalErr.typeErr
  | BinOp.mul =>
    match a, b with
    | PyVal.intV x, PyVal.intV y => Except.ok (PyVal.intV (x * y))
    | PyVal.tupV, PyVal.intV _ => Except.ok PyVal.tupV
    | PyVal.intV _, PyVal.tupV => Except.ok PyVal.tupV
    | _, _ =>
      match qOf a, qOf b with
      | some x, some y => Except.ok (PyVal.floatV (x * y))
      | _, _ => Except.error EvalErr.typeErr
  | BinOp.div =>
    match qOf a, qOf b with
    | some x, some y =>
      if y == 0 then Except.error EvalErr.zeroDiv else Except.ok (PyVal.floatV (x / y))
    | _, _ => Except.error EvalErr.typeErr
  | BinOp.fdiv =>
    match a, b with
    | PyVal.intV x, PyVal.intV y =>
      if y == 0 then Except.error EvalErr.zeroDiv else Except.ok (PyVal.intV (Int.fdiv x y))
    | _, _ =>
      match qOf a, qOf b with
      | some x, some y =>
        if y == 0 then Except.error EvalErr.zeroDiv
        else Except.ok (PyVal.floatV ((ratFloor (x / y) : ℚ)))
      | _, _ => Except.error EvalErr.typeErr
  | BinOp.pow => powVal a b

/-- Python unary operator semantics; `-()` and `+()` are `TypeError`. -/
def evalUn (op : UnOp) (a : PyVal) : Except EvalErr PyVal :=
  match op, a with
  | UnOp.neg, PyVal.intV x => Except.ok (PyVal.intV (-x))
  | UnOp.neg, PyVal.floatV q => Except.ok (PyVal.floatV (-q))
  | UnOp.pos, PyVal.intV x => Except.ok (PyVal.intV x)
  | UnOp.pos, PyVal.floatV q => Except.ok (PyVal.floatV q)
  | _, PyVal.tupV => Except.error EvalErr.typeErr

/-- Evaluate an expression tree, left operand first as Python does. -/
def evalE : PyExpr → Except EvalErr PyVal
  | PyExpr.lit v => Except.ok v
  | PyExpr.unary op e =>
    match evalE e with
    | Except.error er => Except.error er
    | Except.ok v => evalUn op v
  | PyExpr.bin op l r =>
    match evalE l with
    | Except.error er => Except.error er
    | Except.ok a =>
      match evalE r with
      | Except.error er => Except.error er
      | Except.ok b => evalBin op a b

/-- Fractional decimal digits of `rem / d`, up to `fuel` digits. -/
def fracDigits : Nat → Nat → Nat → List Nat
  | 0, _, _ => []
  | _ + 1, 0, _ => []
  | fuel + 1, rem, d => (rem * 10 / d) :: fracDigits fuel (rem * 10 % d) d

/-- Render a float value the way Python's `str` does for the exactly
representable cases: integer part, a dot, and the fractional digits (at least
one, `5.0` style), up to 17 digits. -/
def renderFloat (q : ℚ) : String :=
  let sgn := if q < 0 then "-" else ""
  let n := q.num.natAbs
  let d := q.den
  let ds := fracDigits 17 (n % d) d
  let frac := if ds.isEmpty then "0" else String.mk (ds.map (fun k => Char.ofNat (48 + k)))
  sgn ++ toString (n / d) ++ "." ++ frac

/-- Python `str` on the reachable values (the f-string's `{result}`). -/
def pyStr : PyVal → String
  | PyVal.intV i => toString i
  | PyVal.floatV q => renderFloat q
  | PyVal.tupV => "()"

/-- `eval(expression)` on the filtered fragment: tokenize, parse, evaluate. -/
def pyEval (s : String) : Except EvalErr PyVal :=
  match tokenize s.data with
  | Except.error e => Except.error e
  | Except.ok toks =>
    match parse toks with
    | Except.error e => Except.error e
    | Except.ok e => evalE e

/-- The source's `allowed_chars = set("0123456789+-*/(). ")`; the only
whitespace in it is the ASCII space. -/
def allowedChars : List Char := "0123456789+-*/(). ".data

/-- The source's `all(c in allowed_chars for c in expression)`. -/
def strAllAllowed (s : String) : Bool := s.data.all (fun c => allowedChars.contains c)

/-- The source's invalid-character message, verbatim. -/
def invalidCharMsg : String := "Error: Invalid characters in expression. Only numbers and basic operators (+, -, *, /, parentheses) are allowed."

/-- The `{e}` part of the catch-all branch's f-string, one representative
message per modelled exception class (the claims only constrain the fixed
prefix before it). -/
def errMsg : EvalErr → String
  | EvalErr.synErr => "invalid syntax (<string>, line 1)"
  | EvalErr.typeErr => "unsupported operand type(s)"
  | EvalErr.nonRational => "value outside the exact rational model"
  | EvalErr.zeroDiv => "division by zero"

/-- The `try` body of `calculator` after the filter has passed: the three
outcome branches of `eval` (success, `ZeroDivisionError`, anything else). -/
def evalBranch (expression : String) : String :=
  match pyEval expression with
  | Except.ok result => "Result: " ++ expression ++ " = " ++ pyStr result
  | Except.error EvalErr.zeroDiv => "Error: Division by zero"
  | Except.error e => "Error: Could not evaluate expression. " ++ errMsg e

/-- `calculator` from src/react_agent/tools.py lines 31-52: character filter
first, then the evaluation branches. -/
def calculator (expression : String) : String :=
  if strAllAllowed expression then evalBranch expression else invalidCharMsg

/-- The character set claim C2 describes, in the spec's own words: digits,
the four operators, parentheses, the decimal point, and whitespace (any
whitespace character). Written from the spec to compare with the source's
`allowedChars`, whose only whitespace is the ASCII space. -/
def specCharOk (s : String) : Bool :=
  s.data.all (fun c =>
    c.isDigit || c.isWhitespace || ['+', '-', '*', '/', '(', ')', '.'].contains c)

/-! ## Conversation state and the agent graph
(src/react_agent/state.py and src/react_agent/agent.py) -/

/-- A LangChain tool call dict: `id`, `name`, `args` (the arguments mapping,
kept abstract as its rendered string). -/
structure ToolCall where
  id : String
  name : String
  args : String
  deriving DecidableEq, Repr

/-- The message union threaded through `AgentState.messages`:
`HumanMessage`, `AIMessage` (with its `tool_calls` list), `ToolMessage`. -/
inductive Message where
  | human (content : String)
  | assistant (content : String) (tool_calls : List ToolCall)
  | toolResult (tool_call_id : String) (content : String)
  deriving DecidableEq, Repr

/-- The codomain of `should_continue`: `Literal["tools", "__end__"]`;
`stop` is LangGraph's `END` sentinel `"__end__"`. -/
inductive Route where
  | tools
  | stop
  deriving DecidableEq, Repr

/-- `isinstance(msg, AIMessage)`. -/
def isAssistant : Message → Bool
  | Message.assistant _ _ => true
  | _ => false

/-- `should_continue` from src/react_agent/agent.py lines 46-60: look at
`state["messages"][-1]`; return `"tools"` when it is an `AIMessage` whose
`tool_calls` list is truthy (non-empty), else `END`. (On an empty message
list the Python indexing would fault; the model returns `stop` there, and
every theorem below supplies a last message.) -/
def shouldContinue (messages : List Message) : Route :=
  match messages.getLast? with
  | some (Message.assistant _ tcs) => if tcs.isEmpty then Route.stop else Route.tools
  | _ => Route.stop

/-- The `ChatGoogleGenerativeAI` configuration built by `create_llm`. -/
structure LlmConfig where
  model : String
  googleApiKey : String
  temperature : ℚ
  deriving DecidableEq, Repr

/-- `create_llm` from src/react_agent/agent.py lines 18-28: read
`GOOGLE_API_KEY` from the environment (modelled as an `Option String`),
raise `ValueError` when absent, else build the client configuration. -/
def createLlm (envGoogleApiKey : Option String) : Except String LlmConfig :=
  match envGoogleApiKey with
  | none => Except.error "GOOGLE_API_KEY environment variable is not set"
  | some key => Except.ok { model := "gemini-1.5-flash", googleApiKey := key, temperature := 0 }

/-- `agent_node` from src/react_agent/agent.py lines 31-43: call `create_llm`
(so a missing key faults here, on every invocation), invoke the model on the
full message list, and return a one-element message update. The network call
is the external collaborator, modelled as `llmStub`, a function from the full
history to the returned `AIMessage`'s content and tool calls. -/
def agentNode (envGoogleApiKey : Option String)
    (llmStub : List Message → String × List ToolCall)
    (msgs : List Message) : Except String (List Message) :=
  match createLlm envGoogleApiKey with
  | Except.error e => Except.error e
  | Except.ok _ =>
    let response := llmStub msgs
    Except.ok [Message.assistant response.1 response.2]

/-- The `add_messages` reducer of `AgentState` (src/react_agent/state.py):
for messages with fresh ids — the only case the graph produces — it appends
the update to the existing list. -/
def addMessages (old new : List Message) : List Message := old ++ new

/-- One `agent` node step as the graph applies it: run `agent_node` and merge
its update into the state with the `add_messages` reducer. -/
def applyAgentNode (env : Option String)
    (llmStub : List Message → String × List ToolCall)
    (msgs : List Message) : Except String (List Message) :=
  match agentNode env llmStub msgs with
  | Except.error e => Except.error e
  | Except.ok new => Except.ok (addMessages msgs new)

/-- The shape `create_agent_graph` builds: its nodes, entry point,
conditional edges out of `agent` (`"tools"` to the tool node, `END` to
`END`), and the unconditional edge from `tools` back to `agent`. -/
structure GraphSpec where
  nodes : List String
  entryPoint : String
  conditionalSource : String
  conditionalMap : List (Route × String)
  edges : List (String × String)
  deriving DecidableEq, Repr

/-- The graph that src/react_agent/agent.py lines 63-92 constructs. -/
def reactGraphSpec : GraphSpec :=
  { nodes := ["agent", "tools"]
    entryPoint := "agent"
    conditionalSource := "agent"
    conditionalMap := [(Route.tools, "tools"), (Route.stop, "__end__")]
    edges := [("tools", "agent")] }

/-- `create_agent_graph` from src/react_agent/agent.py lines 63-92: it builds
and compiles the graph and never reads the environment — no credential is
validated at construction time (the `Option String` argument records the
environment it ignores). -/
def createAgentGraph (_envGoogleApiKey : Option String) : Except String GraphSpec :=
  Except.ok reactGraphSpec

/-- The prebuilt `ToolNode`: one `ToolMessage` per requested call, in call
order, each carrying its `tool_call_id`; the tool bodies are the external
collaborator `execTool`. -/
def toolNode (execTool : ToolCall → String) (tcs : List ToolCall) : List Message :=
  tcs.map (fun tc => Message.toolResult tc.id (execTool tc))

/-- The compiled graph's execution loop, exactly as wired by
`create_agent_graph`: run `agent` (append its `AIMessage`), route with
`should_continue`; on `"tools"` append the tool results and return to
`agent`; on `END` stop. `fuel` counts `agent` invocations; `none` means the
loop did not reach `END` within `fuel` iterations — the repository wires no
iteration guard of its own. -/
def runReactLoop (llmStub : List Message → String × List ToolCall)
    (execTool : ToolCall → String) : Nat → List Message → Option (List Message)
  | 0, _ => none
  | fuel + 1, msgs =>
    let response := llmStub msgs
    let msgs1 := msgs ++ [Message.assistant response.1 response.2]
    match shouldContinue msgs1 with
    | Route.stop => some msgs1
    | Route.tools => runReactLoop llmStub execTool fuel (msgs1 ++ toolNode execTool response.2)

/-- The stub Decision Step of the loop-guard property: it always requests
one tool call. -/
def alwaysToolStub : List Message → String × List ToolCall :=
  fun _ => ("", [{ id := "call_1", name := "search_web", args := "query=loop" }])

/-- A stub Decision Step that answers directly, with no tool calls. -/
def stubFinalAnswer : List Message → String × List ToolCall :=
  fun _ => ("final answer", [])

/-! ## Helper lemmas -/

/-- String concatenation concatenates the character data. -/
theorem strData_append (a b : String) : (a ++ b).data = a.data ++ b.data := rfl

/-- String concatenation is associative. -/
theorem strAppend_assoc (a b c : String) : a ++ b ++ c = a ++ (b ++ c) := by
  apply String.ext
  simp [strData_append]

/-- Every list is a leading segment of itself. -/
theorem startsWithL_refl (l : List Char) : startsWithL l l = true := by
  induction l with
  | nil => rfl
  | cons a as ih => simp [startsWithL, ih]

/-- A list occurs as a contiguous segment after any prefix. -/
theorem containsSub_append (n p : List Char) : containsSub n (p ++ n) = true := by
  induction p with
  | nil =>
    cases n with
    | nil => rfl
    | cons a as => simp [containsSub, startsWithL_refl]
  | cons b bs ih => simp [containsSub, ih]

/-- Python `in`: a string contains itself appended after any prefix. -/
theorem strIn_append (n p : String) : strIn n (p ++ n) = true := by
  unfold strIn
  rw [strData_append]
  exact containsSub_append n.data p.data

/-- The last element of a list extended by one element. -/
theorem getLast?_append_one {α : Type} (l : List α) (a : α) :
    (l ++ [a]).getLast? = some a := by
  induction l with
  | nil => rfl
  | cons b bs ih =>
    rw [List.cons_append, List.getLast?_cons, ih]
    cases bs <;> simp

/-! ## Claim theorems -/

/-- C1 counterexample: the claim quantifies over every input made of allowed
characters, but `"2+"` is such an input and `eval` raises a `SyntaxError` on
it, so `calculator` returns the catch-all error string, not a
`Result: ... = ...` string. -/
theorem c1_counterexample :
    strAllAllowed "2+" = true ∧
    strStartsWith "Error: Could not evaluate expression." (calculator "2+") = true ∧
    strStartsWith "Result" (calculator "2+") = false := by
  refine ⟨by decide, by decide, by decide⟩

/-- C1 (amended): for every input over the allowed character set that parses
and evaluates without fault, `calculator` returns
`"Result: expression = value"` with the value computed under standard
operator precedence; an evaluation that divides by zero returns the
division-by-zero error string instead of a fault; in particular
`calculator "2 + 2" = "Result: 2 + 2 = 4"` and
`calculator "10 / 0" = "Error: Division by zero"`. -/
theorem c1_calculator_eval (e : String) :
    (∀ v : PyVal, strAllAllowed e = true → pyEval e = Except.ok v →
      calculator e = "Result: " ++ e ++ " = " ++ pyStr v) ∧
    (strAllAllowed e = true → pyEval e = Except.error EvalErr.zeroDiv →
      calculator e = "Error: Division by zero") ∧
    calculator "2 + 2" = "Result: 2 + 2 = 4" ∧
    calculator "10 / 0" = "Error: Division by zero" := by
  refine ⟨?_, ?_, by decide, by decide⟩
  · intro v hall hev
    simp [calculator, hall, evalBranch, hev]
  · intro hall hev
    simp [calculator, hall, evalBranch, hev]

/-- C1 witness: the amended theorem applied at `"1 + 2 * 3"`, evaluated with
multiplication binding tighter than addition. -/
theorem c1_calculator_eval_witness :
    calculator "1 + 2 * 3" = "Result: 1 + 2 * 3 = 7" :=
  (c1_calculator_eval "1 + 2 * 3").1 (PyVal.intV 7) (by decide) (by rfl)

/-- C2 counterexample: the claim admits any whitespace character, but the
source's `allowed_chars` contains only the ASCII space, so `"1\t1"` — made
only of digits and whitespace — is rejected by the character filter. -/
theorem c2_counterexample :
    specCharOk "1\t1" = true ∧ calculator "1\t1" = invalidCharMsg := by
  refine ⟨by decide, by decide⟩

/-- C2 (amended): with the allowed set `0-9 + - * / ( ) .` plus the space
character (the only whitespace in `allowed_chars`), every input containing a
character outside that set returns the invalid-character error string, every
input within it passes the filter into the evaluation branches, and
`calculator "2+2; rm -rf"` is rejected. -/
theorem c2_character_filter (s : String) :
    (strAllAllowed s = false → calculator s = invalidCharMsg) ∧
    (strAllAllowed s = true → calculator s = evalBranch s) ∧
    calculator "2+2; rm -rf" = invalidCharMsg := by
  refine ⟨?_, ?_, by decide⟩
  · intro h
    simp [calculator, h]
  · intro h
    simp [calculator, h]

/-- C2 witness: the amended theorem applied at a rejected and at an accepted
concrete input. -/
theorem c2_character_filter_witness :
    calculator "abc" = invalidCharMsg ∧ calculator "1+1" = evalBranch "1+1" :=
  ⟨(c2_character_filter "abc").1 (by decide), (c2_character_filter "1+1").2.1 (by decide)⟩

/-- C3: at the routing point the state ends with the assistant message the
agent node just appended, and there the loop controller routes to `END`
exactly when that message's `tool_calls` list is empty, to the tool node
exactly when it is non-empty; and the controller has no route other than
these two. -/
theorem c3_loop_controller :
    (∀ (msgs : List Message) (c : String) (tcs : List ToolCall),
      msgs.getLast? = some (Message.assistant c tcs) →
      ((shouldContinue msgs = Route.stop ↔ tcs = []) ∧
       (shouldContinue msgs = Route.tools ↔ tcs ≠ []))) ∧
    (∀ msgs : List Message,
      shouldContinue msgs = Route.stop ∨ shouldContinue msgs = Route.tools) := by
  constructor
  · intro msgs c tcs h
    cases tcs with
    | nil => simp [shouldContinue, h]
    | cons t ts => simp [shouldContinue, h]
  · intro msgs
    unfold shouldContinue
    cases h : msgs.getLast? with
    | none => simp
    | some m =>
      cases m with
      | human c => simp
      | assistant c tcs => cases tcs <;> simp
      | toolResult i c => simp

/-- C3 witness: the controller theorem applied at a one-message state whose
assistant message has no tool calls. -/
theorem c3_loop_controller_witness :
    shouldContinue [Message.assistant "done" []] = Route.stop :=
  ((c3_loop_controller.1 [Message.assistant "done" []] "done" [] rfl).1).mpr rfl

/-- C9: whenever the last message of the state is not an `AIMessage` — human
or tool-result, whatever its content — the controller routes to `END`. -/
theorem c9_non_assistant_routes_end (msgs : List Message) (m : Message)
    (h1 : msgs.getLast? = some m) (h2 : isAssistant m = false) :
    shouldContinue msgs = Route.stop := by
  unfold shouldContinue
  rw [h1]
  cases m with
  | human c => rfl
  | assistant c tcs => simp [isAssistant] at h2
  | toolResult i c => rfl

/-- C9 witness: the non-assistant routing theorem applied at a state ending
in a tool-result message. -/
theorem c9_non_assistant_routes_end_witness :
    shouldContinue [Message.human "hi", Message.toolResult "id1" "out"] = Route.stop :=
  c9_non_assistant_routes_end _ (Message.toolResult "id1" "out") rfl rfl

/-- C4: the repository's graph wires no iteration guard — with the stub
Decision Step that always requests a tool call, the loop as built by
`create_agent_graph` never reaches `END`, for every iteration bound
(in particular the claimed default of 25) and every starting state; no
`LoopLimitExceeded` failure exists anywhere in the repository. -/
theorem c4_no_iteration_guard (execTool : ToolCall → String) (fuel : Nat) :
    ∀ msgs : List Message, runReactLoop alwaysToolStub execTool fuel msgs = none := by
  induction fuel with
  | zero => intro msgs; rfl
  | succ n ih =>
    intro msgs
    have h : shouldContinue (msgs ++
        [Message.assistant "" [{ id := "call_1", name := "search_web", args := "query=loop" }]]) =
        Route.tools := by
      unfold shouldContinue
      rw [getLast?_append_one]
      rfl
    simp only [runReactLoop, alwaysToolStub, h, ih]

/-- C5: `search_web` lowercases the query and scans the fixed mapping; when
some keyword is a substring it returns the formatted string carrying that
keyword's canned text (which the result therefore contains), and when none
matches it returns the fixed no-results fallback; in particular the
LangGraph query yields the canned LangGraph snippet and `"xyz123"` yields
the fallback. -/
theorem c5_search_web (q : String) :
    (∀ kw txt : String,
      mockResults.find? (fun kr => strIn kr.1 (strLower q)) = some (kw, txt) →
      search_web q = "Search results for '" ++ q ++ "': " ++ txt ∧
      strIn txt (search_web q) = true) ∧
    (mockResults.find? (fun kr => strIn kr.1 (strLower q)) = none →
      search_web q = "Search results for '" ++ q ++ "': No specific results found. This is a mock search tool.") ∧
    strIn "LangGraph is a library for building stateful, multi-actor applications with LLMs."
      (search_web "Tell me about LangGraph") = true ∧
    search_web "xyz123" = "Search results for 'xyz123': No specific results found. This is a mock search tool." := by
  refine ⟨?_, ?_, by decide, by decide⟩
  · intro kw txt h
    have heq : search_web q = "Search results for '" ++ q ++ "': " ++ txt := by
      simp [search_web, h]
    refine ⟨heq, ?_⟩
    rw [heq]
    exact strIn_append txt ("Search results for '" ++ q ++ "': ")
  · intro h
    simp [search_web, h]

/-- C5 witness: the theorem applied at the LangGraph query, whose first
matching mapping entry is the `langgraph` one. -/
theorem c5_search_web_witness :
    search_web "Tell me about LangGraph" =
      "Search results for 'Tell me about LangGraph': LangGraph is a library for building stateful, multi-actor applications with LLMs." :=
  ((c5_search_web "Tell me about LangGraph").1 "langgraph"
    "LangGraph is a library for building stateful, multi-actor applications with LLMs."
    (by decide)).1

/-- C10: the mapping is scanned in its fixed declaration order — a query
matching `langgraph` returns the LangGraph text whatever else it matches; a
query matching `react agent` but not `langgraph` returns the ReAct text; a
query matching only `gemini api` returns the Gemini text; and the function
is deterministic. -/
theorem c10_search_web_order (q : String) :
    (strIn "langgraph" (strLower q) = true →
      search_web q = "Search results for '" ++ q ++
        "': LangGraph is a library for building stateful, multi-actor applications with LLMs.") ∧
    (strIn "langgraph" (strLower q) = false → strIn "react agent" (strLower q) = true →
      search_web q = "Search results for '" ++ q ++
        "': ReAct (Reasoning and Acting) is a paradigm that combines reasoning and action in LLM agents.") ∧
    (strIn "langgraph" (strLower q) = false → strIn "react agent" (strLower q) = false →
      strIn "gemini api" (strLower q) = true →
      search_web q = "Search results for '" ++ q ++
        "': Google Gemini API provides access to Google's multimodal AI models.") ∧
    (∀ q2 : String, q = q2 → search_web q = search_web q2) := by
  refine ⟨?_, ?_, ?_, fun q2 hq => by rw [hq]⟩
  · intro h1
    simp [search_web, mockResults, List.find?, h1, strAppend_assoc]
  · intro h1 h2
    simp [search_web, mockResults, List.find?, h1, h2, strAppend_assoc]
  · intro h1 h2 h3
    simp [search_web, mockResults, List.find?, h1, h2, h3, strAppend_assoc]

/-- C10 witness: the ordering theorem applied where both of the first two
keywords match (the earlier `langgraph` entry wins) and where only the
second matches. -/
theorem c10_search_web_order_witness :
    search_web "langgraph and react agent" =
      "Search results for 'langgraph and react agent': LangGraph is a library for building stateful, multi-actor applications with LLMs." ∧
    search_web "react agent only" =
      "Search results for 'react agent only': ReAct (Reasoning and Acting) is a paradigm that combines reasoning and action in LLM agents." := by
  constructor
  · have h := (c10_search_web_order "langgraph and react agent").1 (by decide)
    simpa using h
  · have h := (c10_search_web_order "react agent only").2.1 (by decide) (by decide)
    simpa using h

/-- C6 counterexample: with the credential absent, `create_agent_graph`
still succeeds — no configuration error is raised at construction time; the
`ValueError` only appears when the first Decision Step runs `create_llm`
inside `agent_node`. -/
theorem c6_counterexample :
    createAgentGraph none = Except.ok reactGraphSpec ∧
    agentNode none stubFinalAnswer [Message.human "hello"] =
      Except.error "GOOGLE_API_KEY environment variable is not set" :=
  ⟨rfl, rfl⟩

/-- C6 (amended): graph construction performs no credential validation —
`create_agent_graph` succeeds with the key missing — and the missing-key
failure is raised by `create_llm` inside `agent_node`, hence on the first
(and every) Decision Step invocation, with the message
`GOOGLE_API_KEY environment variable is not set`; with a key present
`create_llm` succeeds. -/
theorem c6_deferred_credential_check (stub : List Message → String × List ToolCall)
    (msgs : List Message) :
    createAgentGraph none = Except.ok reactGraphSpec ∧
    createLlm none = Except.error "GOOGLE_API_KEY environment variable is not set" ∧
    agentNode none stub msgs = Except.error "GOOGLE_API_KEY environment variable is not set" ∧
    (∀ key : String, createLlm (some key) =
      Except.ok { model := "gemini-1.5-flash", googleApiKey := key, temperature := 0 }) :=
  ⟨rfl, rfl, rfl, fun _ => rfl⟩

/-- C7: one successful Decision Step (key present, any model behavior, any
state) yields exactly the old state with one new assistant message appended:
the update is the old list plus one `AIMessage`, its length grows by one,
and the original messages are untouched and in order as the prefix. -/
theorem c7_agent_node_appends (key : String)
    (stub : List Message → String × List ToolCall) (msgs : List Message) :
    applyAgentNode (some key) stub msgs =
      Except.ok (msgs ++ [Message.assistant (stub msgs).1 (stub msgs).2]) ∧
    (msgs ++ [Message.assistant (stub msgs).1 (stub msgs).2]).length = msgs.length + 1 ∧
    (msgs ++ [Message.assistant (stub msgs).1 (stub msgs).2]).take msgs.length = msgs := by
  refine ⟨rfl, by simp, ?_⟩
  rw [List.take_left]

/-- C8 counterexample: the claim lists `"()"` as a syntax error that reaches
the catch-all branch, but Python evaluates `()` to the empty tuple, so
`calculator "()"` returns a `Result` string, not the catch-all error. -/
theorem c8_counterexample :
    calculator "()" = "Result: () = ()" ∧
    strStartsWith "Error: Could not evaluate expression." (calculator "()") = false := by
  refine ⟨by decide, by decide⟩

/-- C8 (amended): `calculator` is total — every input yields a `Result`
string or an error string, never a fault — and on inputs that pass the
character filter, any evaluation failure other than division by zero (for
example the genuine syntax error `"2+"`) is caught and reported as a string
beginning `Error: Could not evaluate expression.` (`"()"`, by contrast, is
the empty tuple and succeeds). -/
theorem c8_calculator_total (s : String) :
    ((∃ t, calculator s = "Result: " ++ t) ∨ (∃ t, calculator s = "Error:" ++ t)) ∧
    (∀ er : EvalErr, strAllAllowed s = true → pyEval s = Except.error er →
      er ≠ EvalErr.zeroDiv →
      ∃ t, calculator s = "Error: Could not evaluate expression." ++ t) := by
  constructor
  · unfold calculator
    by_cases h : strAllAllowed s
    · simp only [h, if_true]
      unfold evalBranch
      cases hev : pyEval s with
      | ok v =>
        left
        exact ⟨s ++ " = " ++ pyStr v, by simp [strAppend_assoc]⟩
      | error e =>
        right
        cases e with
        | zeroDiv => exact ⟨" Division by zero", rfl⟩
        | typeErr => exact ⟨" Could not evaluate expression. " ++ errMsg EvalErr.typeErr, rfl⟩
        | synErr => exact ⟨" Could not evaluate expression. " ++ errMsg EvalErr.synErr, rfl⟩
        | nonRational =>
          exact ⟨" Could not evaluate expression. " ++ errMsg EvalErr.nonRational, rfl⟩
    · simp only [h, if_false]
      right
      exact ⟨" Invalid characters in expression. Only numbers and basic operators (+, -, *, /, parentheses) are allowed.", rfl⟩
  · intro er hall hev hne
    have hsplit : ("Error: Could not evaluate expression. " : String) =
        "Error: Could not evaluate expression." ++ " " := rfl
    cases er with
    | zeroDiv => exact absurd rfl hne
    | typeErr =>
      refine ⟨" " ++ errMsg EvalErr.typeErr, ?_⟩
      simp only [calculator, hall, if_true, evalBranch, hev]
      rw [hsplit, strAppend_assoc]
    | synErr =>
      refine ⟨" " ++ errMsg EvalErr.synErr, ?_⟩
      simp only [calculator, hall, if_true, evalBranch, hev]
      rw [hsplit, strAppend_assoc]
    | nonRational =>
      refine ⟨" " ++ errMsg EvalErr.nonRational, ?_⟩
      simp only [calculator, hall, if_true, evalBranch, hev]
      rw [hsplit, strAppend_assoc]

/-- C8 witness: the totality theorem applied at the syntax error `"2+"`. -/
theorem c8_calculator_total_witness :
    ∃ t, calculator "2+" = "Error: Could not evaluate expression." ++ t :=
  (c8_calculator_total "2+").2 EvalErr.synErr (by decide) (by rfl) (by decide)

end ReactAgent
